import Mathlib

/-!
Shallow embedding of the pytics profiler core (src/pytics/profiler.py) and
verification of the specification claims about it.

Modelling conventions:
- A pandas DataFrame is a list of named, dtyped columns; a cell is an
  `Option Val` where `none` stands for a missing value (NaN / None).
- Python floats that appear only as display statistics (mean, std, plot data,
  correlation values, KDE curves) are abstracted: the embedding records which
  statistics blocks and report sections are produced and the exact integer /
  rational quantities (counts, percentages before display formatting), since
  no claim depends on floating-point display values.
- numpy scalar division never raises: it produces nan or a signed infinity
  (`PyNum`); Python int division by zero raises `ZeroDivisionError`
  (`Except.error PyErr.zeroDivision`).
- Memory-usage fields of the report are out of scope (machine memory layout).
-/

namespace Pytics

/-- Scalar value stored in a DataFrame cell (missing values are `Option.none`). -/
inductive Val where
  | vInt (i : ℤ)
  | vRat (q : ℚ)
  | vStr (s : String)
  | vBool (b : Bool)
deriving DecidableEq

/-- One cell of a column: `none` models NaN / missing. -/
abbrev Cell := Option Val

/-- Declared storage dtype of a pandas column. -/
inductive Dtype where
  | int64
  | float64
  | object
  | boolType
  | datetime64
  | stringType
deriving DecidableEq

/-- String form of a dtype, as produced by `str(series.dtype)`. -/
def dtypeStr : Dtype → String
  | .int64 => "int64"
  | .float64 => "float64"
  | .object => "object"
  | .boolType => "bool"
  | .datetime64 => "datetime64[ns]"
  | .stringType => "string"

/-- pandas `pd.api.types.is_numeric_dtype`: true for integer, float and bool dtypes. -/
def isNumericDtype : Dtype → Bool
  | .int64 => true
  | .float64 => true
  | .boolType => true
  | _ => false

/-- Test used by `select_dtypes` with include list [int64, float64] and by the
literal dtype-string comparisons `str(dtype) in [int64, float64]`: excludes bool. -/
def isInt64OrFloat64 : Dtype → Bool
  | .int64 => true
  | .float64 => true
  | _ => false

/-- A named, dtyped column of cells. -/
structure Column where
  name : String
  dtype : Dtype
  cells : List Cell
deriving DecidableEq

/-- A DataFrame: an ordered list of columns. -/
structure DataFrame where
  cols : List Column
deriving DecidableEq

/-- pandas `len(df)`: the length of the index, i.e. the (common) column length. -/
def DataFrame.nrows (df : DataFrame) : ℕ :=
  match df.cols with
  | [] => 0
  | c :: _ => c.cells.length

/-- pandas `len(df.columns)`. -/
def DataFrame.ncols (df : DataFrame) : ℕ := df.cols.length

/-- List of column names in order. -/
def DataFrame.colNames (df : DataFrame) : List String := df.cols.map (fun c => c.name)

/-- Rectangularity: every column has the common row count (always true of a
real pandas DataFrame). -/
def DataFrame.Rect (df : DataFrame) : Prop := ∀ c ∈ df.cols, c.cells.length = df.nrows

/-- Column lookup `df[name]`; total, with a default that is never reached for
names that occur in the frame. -/
def DataFrame.getCol (df : DataFrame) (name : String) : Column :=
  (df.cols.find? (fun c => c.name == name)).getD ⟨name, .object, []⟩

/-- Result of a numpy floating-point quotient of exact quantities. -/
inductive PyNum where
  | val (q : ℚ)
  | nan
  | posInf
  | negInf
deriving DecidableEq

/-- numpy scalar division: division by zero produces nan (for 0/0) or a signed
infinity, with a RuntimeWarning but no exception. -/
def npDiv (a b : ℚ) : PyNum :=
  if b = 0 then (if a = 0 then .nan else if 0 < a then .posInf else .negInf)
  else .val (a / b)

/-- The expression `(count / total) * 100` as computed on numpy scalars. -/
def pct (count total : ℕ) : PyNum := npDiv ((count : ℚ) * 100) (total : ℚ)

/-- Python truthiness of the optional `target` argument: `None` and the empty
string are falsy. -/
def targetTruthy : Option String → Bool
  | none => false
  | some s => !(s == "")

/-- Left-to-right effectful map over a list in the `Except` monad: the embedding
of a Python for-loop that can raise, stopping at the first exception. -/
def mapME (f : α → Except ε β) : List α → Except ε (List β)
  | [] => .ok []
  | x :: xs =>
    match f x with
    | .error e => .error e
    | .ok v => (mapME f xs).map (fun vs => v :: vs)

/-- The guard `target and column == target` used to skip the target column. -/
def targetIs (target : Option String) (column : String) : Bool :=
  targetTruthy target && target == some column

/-- The guard `target and target in df.columns`. -/
def targetPresent (df : DataFrame) (target : Option String) : Bool :=
  targetTruthy target && df.colNames.contains (target.getD "")

/-- Row `i` of the frame as the tuple of its cells (pandas treats NaN cells as
equal to each other for duplicate detection). -/
def rowAt (df : DataFrame) (i : ℕ) : List Cell :=
  df.cols.map (fun c => c.cells.getD i none)

/-- pandas `df.duplicated()` at row `i` (keep=first): some earlier row is equal. -/
def duplicatedKeepFirst (df : DataFrame) (i : ℕ) : Bool :=
  (List.range i).any (fun j => rowAt df j == rowAt df i)

/-- pandas `df.duplicated().sum()`: number of rows that repeat an earlier row. -/
def duplicatedCount (df : DataFrame) : ℕ :=
  (List.range df.nrows).countP (duplicatedKeepFirst df)

/-- Number of rows of the frame equal to the given row tuple. -/
def rowOccurrences (df : DataFrame) (r : List Cell) : ℕ :=
  ((List.range df.nrows).map (rowAt df)).count r

/-- Index list of pandas `df[df.duplicated(keep=False)]`: all rows whose tuple
occurs more than once. -/
def duplicatedKeepFalseIdx (df : DataFrame) : List ℕ :=
  (List.range df.nrows).filter (fun i => decide (2 ≤ rowOccurrences df (rowAt df i)))

/-- pandas `df.isna().sum().sum()`: total number of missing cells. -/
def missingCells (df : DataFrame) : ℕ :=
  (df.cols.map (fun c => c.cells.countP (fun x => x.isNone))).sum

/-- pandas `df.isna().any().sum()`: number of columns containing a missing cell. -/
def varsWithMissing (df : DataFrame) : ℕ :=
  df.cols.countP (fun c => c.cells.any (fun x => x.isNone))

/-- Overview statistics produced by `_calculate_overview_stats` (memory-usage
fields omitted: machine memory layout is out of scope). The percentage fields
hold the numpy quotient prior to display formatting. -/
structure OverviewStats where
  rows : ℕ
  columns : ℕ
  duplicate_rows : ℕ
  duplicate_rows_pct : PyNum
  missing_cells : ℕ
  missing_cells_pct : PyNum
deriving DecidableEq

/-- Embedding of `_calculate_overview_stats`. All divisions here are numpy
scalar divisions (`df.duplicated().sum()` and `df.isna().sum().sum()` are numpy
ints), so a zero denominator yields nan, not an exception. -/
def calculate_overview_stats (df : DataFrame) : OverviewStats :=
  { rows := df.nrows
    columns := df.ncols
    duplicate_rows := duplicatedCount df
    duplicate_rows_pct := pct (duplicatedCount df) df.nrows
    missing_cells := missingCells df
    missing_cells_pct := pct (missingCells df) (df.nrows * df.ncols) }

/-- pandas `series.nunique()`: distinct non-missing values (a Python int). -/
def nunique (cells : List Cell) : ℕ := (cells.filterMap id).dedup.length

/-- Insertion step of a descending insertion sort by a numeric key (stable:
an element moves before another only on a strictly larger key). -/
def insertDescBy (key : α → ℕ) (x : α) : List α → List α
  | [] => [x]
  | y :: ys => if key y < key x then x :: y :: ys else y :: insertDescBy key x ys

/-- Stable descending sort by a numeric key (models pandas sorts with
`ascending=False`). -/
def sortDescBy (key : α → ℕ) : List α → List α
  | [] => []
  | x :: xs => insertDescBy key x (sortDescBy key xs)

/-- pandas `series.value_counts()`: non-missing values with multiplicities,
sorted by count descending, ties in first-encountered order. -/
def valueCounts (cells : List Cell) : List (Val × ℕ) :=
  let nonNull := cells.filterMap id
  sortDescBy (fun p => p.2) (nonNull.dedup.map (fun v => (v, nonNull.count v)))

/-- Statistics block of a variable: the numeric branch fills the
mean/std/min/quartiles/max entries (floating-point display values, abstracted);
the categorical branch records the mode. -/
inductive StatsBlock where
  | numeric
  | categorical (mode : Option Val)
deriving DecidableEq

/-- Exceptions the embedded code can raise. -/
inductive PyErr where
  | zeroDivision
  | dataSize
  | valueError
  | linAlgError
deriving DecidableEq

/-- Per-variable analysis result of `_analyze_variable` (the distribution plot
is chart-renderer output, out of scope; `target_plot` records whether a target
relationship plot is produced). -/
structure VarStats where
  name : String
  dtype : Dtype
  distinct_count : ℕ
  distinct_pct : PyNum
  missing_count : ℕ
  missing_pct : PyNum
  stats : StatsBlock
  target_plot : Bool
deriving DecidableEq

/-- Embedding of `_analyze_variable`. `distinct_count` is a Python int
(`series.nunique()`), so the `distinct_pct` division raises `ZeroDivisionError`
when the column has zero rows; it is evaluated before any other branch of the
function. `missing_count` is a numpy int, whose division would give nan. -/
def analyze_variable (df : DataFrame) (column : String) (target : Option String) :
    Except PyErr VarStats :=
  let series := df.getCol column
  let total := series.cells.length
  let missing := series.cells.countP (fun x => x.isNone)
  let distinct := nunique series.cells
  if total = 0 then .error .zeroDivision
  else .ok
    { name := column
      dtype := series.dtype
      distinct_count := distinct
      distinct_pct := pct distinct total
      missing_count := missing
      missing_pct := pct missing total
      stats :=
        if isNumericDtype series.dtype then .numeric
        else .categorical ((valueCounts series.cells).head?.map (fun p => p.1))
      target_plot :=
        if isNumericDtype series.dtype then
          targetPresent df target
        else
          targetPresent df target &&
            isInt64OrFloat64 (df.getCol (target.getD "")).dtype }

/-- Section gating test of `_prepare_json_data`: the Python condition
`(not include_sections or name in include_sections) and
(not exclude_sections or name not in exclude_sections)`; note that an empty
list is falsy in Python, hence behaves like None. -/
def sectionOn (name : String) (inc exc : Option (List String)) : Bool :=
  (!(match inc with | none => false | some l => !l.isEmpty) || (inc.getD []).contains name)
    && (!(match exc with | none => false | some l => !l.isEmpty) || !((exc.getD []).contains name))

/-- Columns selected by `df.select_dtypes(include=[int64, float64])`. -/
def numericCols (df : DataFrame) : List Column :=
  df.cols.filter (fun c => isInt64OrFloat64 c.dtype)

/-- Content of the missing_values section of the JSON report. -/
structure MissingInfo where
  total_missing : ℕ
  missing_percentage : PyNum
  variables_with_missing : ℕ
deriving DecidableEq

/-- Content of the duplicates section of the JSON report. -/
structure DupInfo where
  total_duplicates : ℕ
  duplicate_percentage : PyNum
deriving DecidableEq

/-- Content of the target_analysis section; feature-importance scores are
floating-point library outputs (Pearson correlation magnitude, or
sklearn mutual information for a categorical target), so the embedding keeps
the list of scored feature names. -/
structure TargetAnalysis where
  target_name : String
  target_type : Dtype
  feature_importance : List String
deriving DecidableEq

/-- Feature-importance key set of the target-analysis section: for a numeric
target (pandas is_numeric_dtype, which includes bool) every other numeric
column is scored by correlation; for a categorical target exactly the
`select_dtypes([int64, float64])` columns are scored by mutual information. -/
def mkTargetAnalysis (df : DataFrame) (t : String) : TargetAnalysis :=
  let tcol := df.getCol t
  { target_name := t
    target_type := tcol.dtype
    feature_importance :=
      if isNumericDtype tcol.dtype then
        (df.cols.filter (fun c => !(c.name == t) && isNumericDtype c.dtype)).map
          (fun c => c.name)
      else (numericCols df).map (fun c => c.name) }

/-- The JSON report model produced by `_prepare_json_data` (metadata timestamp
and version strings omitted; the correlations section is represented by the
list of column names of the Pearson matrix, whose float entries no claim
inspects). -/
structure Report where
  rows : ℕ
  columns : ℕ
  n_vars : ℕ
  n_obs : ℕ
  variablesMap : List (String × VarStats)
  correlations : Option (List String)
  missing_values : Option MissingInfo
  duplicates : Option DupInfo
  target_analysis : Option TargetAnalysis
deriving DecidableEq

/-- Assembly of the JSON report record from the analyzed variables and the
frame, mirroring the section construction of `_prepare_json_data`: the three
named sections are gated by include/exclude; the target-analysis section is
gated only by `target and target in df.columns`. -/
def assembleReport (df : DataFrame) (target : Option String)
    (inc exc : Option (List String)) (varsList : List VarStats) : Report :=
  { rows := df.nrows
    columns := df.ncols
    n_vars := df.ncols
    n_obs := df.nrows
    variablesMap := varsList.map (fun v => (v.name, v))
    correlations :=
      if sectionOn "correlations" inc exc then
        (if 1 < (numericCols df).length then
          some ((numericCols df).map (fun c => c.name))
        else none)
      else none
    missing_values :=
      if sectionOn "missing_values" inc exc then
        some
          { total_missing := missingCells df
            missing_percentage := pct (missingCells df) (df.nrows * df.ncols)
            variables_with_missing := varsWithMissing df }
      else none
    duplicates :=
      if sectionOn "duplicates" inc exc then
        some
          { total_duplicates := duplicatedCount df
            duplicate_percentage := pct (duplicatedCount df) df.nrows }
      else none
    target_analysis :=
      if targetPresent df target then some (mkTargetAnalysis df (target.getD ""))
      else none }

/-- Embedding of `_prepare_json_data`: analyzes every non-target column in
order (each analysis can raise on a zero-row column), then assembles the
sections. -/
def prepare_json_data (df : DataFrame) (target : Option String)
    (inc exc : Option (List String)) : Except PyErr Report :=
  (mapME (fun c => analyze_variable df c.name target)
      (df.cols.filter (fun c => !(targetIs target c.name)))).map
    (assembleReport df target inc exc)

/-- Constant MAX_ROWS of the source. -/
def MAX_ROWS : ℕ := 1000000

/-- Constant MAX_COLS of the source. -/
def MAX_COLS : ℕ := 1000

/-- Embedding of `profile` (JSON export path): the size guard runs first and
raises DataSizeError before any statistic is computed; the body then builds
the JSON report model. -/
def profile (df : DataFrame) (target : Option String)
    (inc exc : Option (List String)) : Except PyErr Report :=
  if MAX_ROWS < df.nrows then .error .dataSize
  else if MAX_COLS < df.ncols then .error .dataSize
  else prepare_json_data df target inc exc

/-- Rows of the frame that act as groupby keys: pandas groupby drops keys
containing NaN, so rows with a missing cell belong to no group. -/
def keyRowsList (df : DataFrame) : List (List Cell) :=
  ((List.range df.nrows).map (rowAt df)).filter (fun r => !(r.any (fun c => c.isNone)))

/-- Sizes of the full-row-equality groups of `df.groupby(list(df.columns)).size()`. -/
def groupSizes (df : DataFrame) : List ℕ :=
  (keyRowsList df).dedup.map (fun r => (keyRowsList df).count r)

/-- One reported duplicate group: its size, and the sample of row indices the
source attaches to every group (first 5 indices of the dataset-wide
`df.duplicated(keep=False)` mask). -/
structure DupGroup where
  count : ℕ
  rows : List ℕ
deriving DecidableEq

/-- Embedding of `_analyze_duplicates`. -/
def analyze_duplicates (df : DataFrame) : List DupGroup :=
  if duplicatedCount df = 0 then []
  else
    ((sortDescBy id ((groupSizes df).filter (fun n => decide (1 < n)))).take 10).map
      (fun c => ⟨c, (duplicatedKeepFalseIdx df).take 5⟩)

/-- Lexicographic comparison of char lists by code point, the order Python
uses to sort strings. -/
def lexLe : List Char → List Char → Bool
  | [], _ => true
  | _ :: _, [] => false
  | x :: xs, y :: ys => if x < y then true else if y < x then false else lexLe xs ys

/-- Lexicographic string comparison (Python string order). -/
def strLe (a b : String) : Bool := lexLe a.data b.data

/-- Insertion step of insertion sort by a boolean comparison. -/
def insertLe (le : α → α → Bool) (x : α) : List α → List α
  | [] => [x]
  | y :: ys => if le x y then x :: y :: ys else y :: insertLe le x ys

/-- Insertion sort by a boolean comparison (models Python `sorted`). -/
def isort (le : α → α → Bool) : List α → List α
  | [] => []
  | x :: xs => insertLe le x (isort le xs)

/-- Python `sorted(list(<set of names>))`: duplicates removed, then sorted
lexicographically. -/
def sortedNameSet (l : List String) : List String := isort strLe l.dedup

/-- Per-column two-sided statistics of `compare` (exact count data; the
formatted numeric describe fields are floating-point display values). -/
structure ColStats where
  count1 : ℕ
  count2 : ℕ
  missing1 : ℕ
  missing2 : ℕ
  missing_pct1 : PyNum
  missing_pct2 : PyNum
  unique1 : ℕ
  unique2 : ℕ
  unique_pct1 : ℚ
  unique_pct2 : ℚ
deriving DecidableEq

/-- Distribution-overlay payload tag of a column comparison (histogram bins and
KDE curves are floating-point chart data). -/
inductive DistData where
  | numeric
  | categorical
deriving DecidableEq

/-- Whether every element of the list equals the first (singular sample for a
kernel density estimate). -/
def allEqual : List Val → Bool
  | [] => true
  | x :: xs => xs.all (fun y => y == x)

/-- Numeric distribution computation of `compare`: the shared histogram bins
are finite only when both sides have a non-missing value (otherwise the
min/max is NaN and `np.histogram` raises), and the per-side kernel density
estimate needs at least two distinct sample points (otherwise scipy raises a
singular-matrix error). -/
def numericBranch (s1 s2 : List Cell) : Except PyErr DistData :=
  let d1 := s1.filterMap id
  let d2 := s2.filterMap id
  if d1.isEmpty || d2.isEmpty then .error .valueError
  else if d1.length < 2 || allEqual d1 then .error .linAlgError
  else if d2.length < 2 || allEqual d2 then .error .linAlgError
  else .ok .numeric

/-- One column comparison: shared statistics plus distribution payload. -/
structure ColComparison where
  stats : ColStats
  dist : DistData
deriving DecidableEq

/-- Per-common-column body of the `compare` loop. The unique_percent fields
divide Python ints, so a zero total on either side raises ZeroDivisionError
(side 1 is evaluated first); the missing_percent fields are numpy divisions. -/
def compareColumn (df1 df2 : DataFrame) (col : String) : Except PyErr ColComparison :=
  let s1 := df1.getCol col
  let s2 := df2.getCol col
  let t1 := s1.cells.length
  let t2 := s2.cells.length
  if t1 = 0 then .error .zeroDivision
  else if t2 = 0 then .error .zeroDivision
  else
    let stats : ColStats :=
      { count1 := t1
        count2 := t2
        missing1 := s1.cells.countP (fun x => x.isNone)
        missing2 := s2.cells.countP (fun x => x.isNone)
        missing_pct1 := pct (s1.cells.countP (fun x => x.isNone)) t1
        missing_pct2 := pct (s2.cells.countP (fun x => x.isNone)) t2
        unique1 := nunique s1.cells
        unique2 := nunique s2.cells
        unique_pct1 := (nunique s1.cells : ℚ) * 100 / (t1 : ℚ)
        unique_pct2 := (nunique s2.cells : ℚ) * 100 / (t2 : ℚ) }
    if isInt64OrFloat64 s1.dtype && isInt64OrFloat64 s2.dtype then
      (numericBranch s1.cells s2.cells).map (fun d => ⟨stats, d⟩)
    else .ok ⟨stats, .categorical⟩

/-- The comparison model returned by `compare` (report rendering and the
DataFrame back-references omitted). -/
structure CompareResult where
  columns_only_in_df1 : List String
  columns_only_in_df2 : List String
  common_columns : List String
  dtype_differences : List (String × String × String)
  variable_comparison : List (String × ColComparison)
deriving DecidableEq

/-- Python `sorted(list(set(a.columns) - set(b.columns)))`. -/
def columnsOnlyIn (df1 df2 : DataFrame) : List String :=
  sortedNameSet (df1.colNames.filter (fun n => !(df2.colNames.contains n)))

/-- Python `sorted(list(set(df1.columns) & set(df2.columns)))`. -/
def commonColumns (df1 df2 : DataFrame) : List String :=
  sortedNameSet (df1.colNames.filter (fun n => df2.colNames.contains n))

/-- Embedding of `compare`: schema reconciliation over the column-name sets,
dtype-string mismatch table, then the per-common-column statistical loop. -/
def compare (df1 df2 : DataFrame) : Except PyErr CompareResult :=
  let common := commonColumns df1 df2
  let dtypeDiffs := common.filterMap (fun col =>
    let d1 := dtypeStr (df1.getCol col).dtype
    let d2 := dtypeStr (df2.getCol col).dtype
    if d1 ≠ d2 then some (col, d1, d2) else none)
  (mapME (fun col => (compareColumn df1 df2 col).map (fun r => (col, r))) common).map
    (fun vc =>
      { columns_only_in_df1 := columnsOnlyIn df1 df2
        columns_only_in_df2 := columnsOnlyIn df2 df1
        common_columns := common
        dtype_differences := dtypeDiffs
        variable_comparison := vc })

instance {ε α : Type} [DecidableEq ε] [DecidableEq α] : DecidableEq (Except ε α) := fun a b =>
  match a, b with
  | .error e1, .error e2 =>
    match decEq e1 e2 with
    | isTrue h => isTrue (by rw [h])
    | isFalse h => isFalse (by intro hc; cases hc; exact h rfl)
  | .error _, .ok _ => isFalse (by intro hc; cases hc)
  | .ok _, .error _ => isFalse (by intro hc; cases hc)
  | .ok v1, .ok v2 =>
    match decEq v1 v2 with
    | isTrue h => isTrue (by rw [h])
    | isFalse h => isFalse (by intro hc; cases hc; exact h rfl)

/-- Concrete scenario 1 of the spec: age float64 [25, 30, NaN, 40],
city object [NY, LA, NY, SF], target int64 [1, 0, 1, 1]. -/
def dfC1 : DataFrame :=
  ⟨[⟨"age", .float64, [some (.vRat 25), some (.vRat 30), none, some (.vRat 40)]⟩,
    ⟨"city", .object,
      [some (.vStr "NY"), some (.vStr "LA"), some (.vStr "NY"), some (.vStr "SF")]⟩,
    ⟨"target", .int64, [some (.vInt 1), some (.vInt 0), some (.vInt 1), some (.vInt 1)]⟩]⟩

/-- Frame with a single zero-row column. -/
def dfE : DataFrame := ⟨[⟨"a", .int64, []⟩]⟩

/-- Concrete scenario 3 of the spec: 10 rows, exactly one fully duplicated
pair (rows 0 and 1). -/
def dfC7 : DataFrame :=
  ⟨[⟨"x", .int64,
      [some (.vInt 0), some (.vInt 0), some (.vInt 1), some (.vInt 2), some (.vInt 3),
        some (.vInt 4), some (.vInt 5), some (.vInt 6), some (.vInt 7), some (.vInt 8)]⟩]⟩

/-- Boundary frame with exactly MAX_ROWS rows. -/
def bigDf : DataFrame := ⟨[⟨"a", .int64, List.replicate 1000000 (some (.vInt 1))⟩]⟩

/-- Concrete scenario 2 of the spec, first frame: columns id, score, region. -/
def dfA : DataFrame :=
  ⟨[⟨"id", .int64, [some (.vInt 1), some (.vInt 2)]⟩,
    ⟨"score", .float64, [some (.vRat 2), some (.vRat 7)]⟩,
    ⟨"region", .object, [some (.vStr "n"), some (.vStr "s")]⟩]⟩

/-- Concrete scenario 2 of the spec, second frame: columns id, score, flag. -/
def dfB : DataFrame :=
  ⟨[⟨"id", .int64, [some (.vInt 1), some (.vInt 2)]⟩,
    ⟨"score", .float64, [some (.vRat 2), some (.vRat 7)]⟩,
    ⟨"flag", .boolType, [some (.vBool true), some (.vBool false)]⟩]⟩

/-- Tiny frame with the single column x and one row. -/
def dfX : DataFrame := ⟨[⟨"x", .int64, [some (.vInt 1)]⟩]⟩

/-- Tiny frame with the single column y and one row. -/
def dfY : DataFrame := ⟨[⟨"y", .int64, [some (.vInt 1)]⟩]⟩

/-- The include/exclude gating rule as the specification words it: a section is
computed iff (include unset or named) and (exclude unset or not named); the
code treats an empty list like an unset argument, which this predicate makes
explicit. -/
def SpecAllowed (name : String) (inc exc : Option (List String)) : Prop :=
  (inc = none ∨ inc = some [] ∨ name ∈ inc.getD []) ∧
    (exc = none ∨ exc = some [] ∨ name ∉ exc.getD [])

/-- The target designates an existing column, as the specification words it:
a nonempty name that occurs among the column names. -/
def TargetPresentP (df : DataFrame) (t : Option String) : Prop :=
  ∃ s, t = some s ∧ s ≠ "" ∧ s ∈ df.colNames

/-- Extraction of the report from a successful run, with an inert default. -/
def reportOf (r : Except PyErr Report) : Report :=
  r.toOption.getD ⟨0, 0, 0, 0, [], none, none, none, none⟩

/-- Extraction of the comparison model from a successful run, with an inert
default. -/
def compareResOf (r : Except PyErr CompareResult) : CompareResult :=
  r.toOption.getD ⟨[], [], [], [], []⟩

theorem lexLe_total (a b : List Char) : lexLe a b = true ∨ lexLe b a = true := by
  induction a generalizing b with
  | nil => left; rfl
  | cons x xs ih =>
    cases b with
    | nil => right; rfl
    | cons y ys =>
      rcases lt_trichotomy x y with h | h | h
      · left; simp [lexLe, h]
      · subst h; simpa [lexLe] using ih ys
      · right; simp [lexLe, h, not_lt.mpr h.le]

theorem lexLe_trans {a b c : List Char} (h1 : lexLe a b = true) (h2 : lexLe b c = true) :
    lexLe a c = true := by
  induction a generalizing b c with
  | nil => rfl
  | cons x xs ih =>
    cases b with
    | nil => simp [lexLe] at h1
    | cons y ys =>
      cases c with
      | nil => simp [lexLe] at h2
      | cons z zs =>
        simp only [lexLe] at h1 h2 ⊢
        rcases lt_trichotomy x y with hxy | hxy | hxy
        · rcases lt_trichotomy y z with hyz | hyz | hyz
          · simp [hxy.trans hyz]
          · subst hyz; simp [hxy]
          · simp [not_lt.mpr hyz.le, hyz] at h2
        · subst hxy
          simp only [lt_irrefl, if_false] at h1
          rcases lt_trichotomy x z with hyz | hyz | hyz
          · simp [hyz]
          · subst hyz
            simp only [lt_irrefl, if_false] at h2 ⊢
            exact ih h1 h2
          · simp [not_lt.mpr hyz.le, hyz] at h2
        · simp [not_lt.mpr hxy.le, hxy] at h1

theorem lexLe_antisymm {a b : List Char} (h1 : lexLe a b = true) (h2 : lexLe b a = true) :
    a = b := by
  induction a generalizing b with
  | nil =>
    cases b with
    | nil => rfl
    | cons y ys => simp [lexLe] at h2
  | cons x xs ih =>
    cases b with
    | nil => simp [lexLe] at h1
    | cons y ys =>
      simp only [lexLe] at h1 h2
      rcases lt_trichotomy x y with hxy | hxy | hxy
      · simp [not_lt.mpr hxy.le, hxy] at h2
      · subst hxy
        simp only [lt_irrefl, if_false] at h1 h2
        rw [ih h1 h2]
      · simp [not_lt.mpr hxy.le, hxy] at h1

theorem strLe_total (a b : String) : strLe a b = true ∨ strLe b a = true :=
  lexLe_total a.data b.data

theorem strLe_trans {a b c : String} (h1 : strLe a b = true) (h2 : strLe b c = true) :
    strLe a c = true :=
  lexLe_trans h1 h2

theorem strLe_antisymm {a b : String} (h1 : strLe a b = true) (h2 : strLe b a = true) :
    a = b := by
  cases a; cases b
  exact congrArg String.mk (lexLe_antisymm h1 h2)

theorem mem_insertLe (le : α → α → Bool) (x a : α) (l : List α) :
    a ∈ insertLe le x l ↔ a = x ∨ a ∈ l := by
  induction l with
  | nil => simp [insertLe]
  | cons y ys ih =>
    simp only [insertLe]
    by_cases h : le x y = true
    · simp [h]
    · rw [if_neg h]
      simp only [List.mem_cons, ih]
      tauto

theorem perm_insertLe (le : α → α → Bool) (x : α) (l : List α) :
    (insertLe le x l).Perm (x :: l) := by
  induction l with
  | nil => simp [insertLe]
  | cons y ys ih =>
    by_cases h : le x y = true
    · simp [insertLe, h]
    · simp only [insertLe, h, if_false]
      exact (ih.cons y).trans (List.Perm.swap x y ys)

theorem perm_isort (le : α → α → Bool) (l : List α) : (isort le l).Perm l := by
  induction l with
  | nil => simp [isort]
  | cons x xs ih =>
    exact (perm_insertLe le x (isort le xs)).trans (ih.cons x)

theorem sorted_insertLe (le : α → α → Bool)
    (htot : ∀ a b, le a b = true ∨ le b a = true)
    (htrans : ∀ {a b c}, le a b = true → le b c = true → le a c = true)
    (x : α) (l : List α) (hs : List.Sorted (fun a b => le a b = true) l) :
    List.Sorted (fun a b => le a b = true) (insertLe le x l) := by
  induction l with
  | nil => simp [insertLe]
  | cons y ys ih =>
    rcases List.sorted_cons.mp hs with ⟨hy, hys⟩
    simp only [insertLe]
    by_cases h : le x y = true
    · rw [if_pos h]
      refine List.sorted_cons.mpr ⟨?_, hs⟩
      intro b hb
      rcases List.mem_cons.mp hb with rfl | hb
      · exact h
      · exact htrans h (hy b hb)
    · rw [if_neg h]
      refine List.sorted_cons.mpr ⟨?_, ih hys⟩
      intro b hb
      rcases (mem_insertLe le x b ys).mp hb with rfl | hb
      · rcases htot b y with h2 | h2
        · exact absurd h2 h
        · exact h2
      · exact hy b hb

theorem sorted_isort (le : α → α → Bool)
    (htot : ∀ a b, le a b = true ∨ le b a = true)
    (htrans : ∀ {a b c}, le a b = true → le b c = true → le a c = true)
    (l : List α) : List.Sorted (fun a b => le a b = true) (isort le l) := by
  induction l with
  | nil => simp [isort]
  | cons x xs ih => exact sorted_insertLe le htot htrans x (isort le xs) ih

theorem sortedNameSet_sorted (l : List String) :
    List.Sorted (fun a b => strLe a b = true) (sortedNameSet l) :=
  sorted_isort strLe strLe_total (fun h1 h2 => strLe_trans h1 h2) l.dedup

theorem sortedNameSet_perm (l : List String) : (sortedNameSet l).Perm l.dedup :=
  perm_isort strLe l.dedup

theorem mem_sortedNameSet {a : String} {l : List String} :
    a ∈ sortedNameSet l ↔ a ∈ l := by
  rw [(sortedNameSet_perm l).mem_iff, List.mem_dedup]

theorem sortedNameSet_nodup (l : List String) : (sortedNameSet l).Nodup :=
  ((sortedNameSet_perm l).nodup_iff).mpr l.nodup_dedup

theorem sortedNameSet_eq_of_same_mem {l1 l2 : List String}
    (h : ∀ a, a ∈ l1 ↔ a ∈ l2) : sortedNameSet l1 = sortedNameSet l2 := by
  have hperm : (sortedNameSet l1).Perm (sortedNameSet l2) := by
    refine List.perm_of_nodup_nodup_toFinset_eq (sortedNameSet_nodup l1)
      (sortedNameSet_nodup l2) ?_
    ext a
    simp [List.mem_toFinset, mem_sortedNameSet, h a]
  exact @List.eq_of_perm_of_sorted String (fun a b => strLe a b = true)
    ⟨fun a b h1 h2 => strLe_antisymm h1 h2⟩ _ _ hperm
    (sortedNameSet_sorted l1) (sortedNameSet_sorted l2)

theorem exceptOk_of_isOk {ε : Type u} {α : Type v} (e : Except ε α) (d : α)
    (h : e.isOk = true) : e = .ok (e.toOption.getD d) := by
  cases e with
  | error err => simp [Except.isOk, Except.toBool] at h
  | ok v => rfl

theorem exceptMap_ne_error {ε : Type u} {α : Type v} {β : Type w} {f : α → β}
    {e : Except ε α} {err : ε} (h : e.map f = .error err) : e = .error err := by
  cases e with
  | error e2 => simpa [Except.map] using h
  | ok v => simp [Except.map] at h

theorem mapME_error_mem {f : α → Except ε β} {l : List α} {e : ε}
    (h : mapME f l = .error e) : ∃ x ∈ l, f x = .error e := by
  induction l with
  | nil => simp [mapME] at h
  | cons x xs ih =>
    simp only [mapME] at h
    cases hx : f x with
    | error e2 =>
      rw [hx] at h
      cases h
      exact ⟨x, List.mem_cons_self x xs, hx⟩
    | ok v =>
      rw [hx] at h
      rcases ih (exceptMap_ne_error h) with ⟨y, hy, hfy⟩
      exact ⟨y, List.mem_cons_of_mem x hy, hfy⟩

theorem mapME_cons_error {f : α → Except ε β} {x : α} (xs : List α) {e : ε}
    (h : f x = .error e) : mapME f (x :: xs) = .error e := by
  simp [mapME, h]

theorem mapME_ok_forall {f : α → Except ε β} {l : List α} {vs : List β}
    (h : mapME f l = .ok vs) : List.Forall₂ (fun x v => f x = .ok v) l vs := by
  induction l generalizing vs with
  | nil => cases h; exact List.Forall₂.nil
  | cons x xs ih =>
    simp only [mapME] at h
    cases hx : f x with
    | error e2 => rw [hx] at h; cases h
    | ok v =>
      rw [hx] at h
      cases hrest : mapME f xs with
      | error e2 => rw [hrest] at h; simp [Except.map] at h
      | ok ws =>
        rw [hrest] at h
        simp only [Except.map] at h
        cases h
        exact List.Forall₂.cons hx (ih hrest)

theorem analyze_variable_error {df : DataFrame} {c : String} {t : Option String} {e : PyErr}
    (h : analyze_variable df c t = .error e) :
    e = .zeroDivision ∧ (df.getCol c).cells.length = 0 := by
  by_cases h0 : (df.getCol c).cells.length = 0
  · rw [analyze_variable, if_pos h0] at h
    cases h
    exact ⟨rfl, h0⟩
  · rw [analyze_variable, if_neg h0] at h
    cases h

theorem analyze_variable_zero {df : DataFrame} {c : String} {t : Option String}
    (h0 : (df.getCol c).cells.length = 0) :
    analyze_variable df c t = .error .zeroDivision := by
  rw [analyze_variable, if_pos h0]

theorem analyze_variable_ok {df : DataFrame} {c : String} {t : Option String} {v : VarStats}
    (h : analyze_variable df c t = .ok v) :
    v = { name := c
          dtype := (df.getCol c).dtype
          distinct_count := nunique (df.getCol c).cells
          distinct_pct := pct (nunique (df.getCol c).cells) (df.getCol c).cells.length
          missing_count := (df.getCol c).cells.countP (fun x => x.isNone)
          missing_pct := pct ((df.getCol c).cells.countP (fun x => x.isNone))
            (df.getCol c).cells.length
          stats :=
            if isNumericDtype (df.getCol c).dtype then .numeric
            else .categorical ((valueCounts (df.getCol c).cells).head?.map (fun p => p.1))
          target_plot :=
            if isNumericDtype (df.getCol c).dtype then targetPresent df t
            else
              targetPresent df t &&
                isInt64OrFloat64 (df.getCol (t.getD "")).dtype } ∧
      (df.getCol c).cells.length ≠ 0 := by
  by_cases h0 : (df.getCol c).cells.length = 0
  · rw [analyze_variable, if_pos h0] at h
    cases h
  · rw [analyze_variable, if_neg h0] at h
    cases h
    exact ⟨rfl, h0⟩

theorem prepare_json_data_eq_map (df : DataFrame) (t : Option String)
    (inc exc : Option (List String)) :
    prepare_json_data df t inc exc =
      (mapME (fun c => analyze_variable df c.name t)
          (df.cols.filter (fun c => !(targetIs t c.name)))).map
        (assembleReport df t inc exc) := rfl

theorem prepare_json_data_ok {df : DataFrame} {t : Option String}
    {inc exc : Option (List String)} {r : Report}
    (h : prepare_json_data df t inc exc = .ok r) :
    ∃ vs, mapME (fun c => analyze_variable df c.name t)
        (df.cols.filter (fun c => !(targetIs t c.name))) = .ok vs ∧
      r = assembleReport df t inc exc vs := by
  rw [prepare_json_data_eq_map] at h
  cases hE : mapME (fun c => analyze_variable df c.name t)
      (df.cols.filter (fun c => !(targetIs t c.name))) with
  | error e => rw [hE] at h; simp [Except.map] at h
  | ok vs =>
    rw [hE] at h
    simp only [Except.map] at h
    cases h
    exact ⟨vs, rfl, rfl⟩

theorem sectionOn_iff (name : String) (inc exc : Option (List String)) :
    sectionOn name inc exc = true ↔ SpecAllowed name inc exc := by
  have hmem : ∀ (l : List String), l.contains name = true ↔ name ∈ l := by
    intro l; simp
  cases inc with
  | none =>
    cases exc with
    | none => simp [sectionOn, SpecAllowed]
    | some l2 =>
      cases l2 with
      | nil => simp [sectionOn, SpecAllowed]
      | cons b bs => simp [sectionOn, SpecAllowed, hmem]
  | some l1 =>
    cases l1 with
    | nil =>
      cases exc with
      | none => simp [sectionOn, SpecAllowed]
      | some l2 =>
        cases l2 with
        | nil => simp [sectionOn, SpecAllowed]
        | cons b bs => simp [sectionOn, SpecAllowed, hmem]
    | cons a as =>
      cases exc with
      | none => simp [sectionOn, SpecAllowed, hmem]
      | some l2 =>
        cases l2 with
        | nil => simp [sectionOn, SpecAllowed, hmem]
        | cons b bs => simp [sectionOn, SpecAllowed, hmem]

theorem targetPresent_iff (df : DataFrame) (t : Option String) :
    targetPresent df t = true ↔ TargetPresentP df t := by
  rw [targetPresent, TargetPresentP, Bool.and_eq_true]
  constructor
  · rintro ⟨h1, h2⟩
    cases t with
    | none => simp [targetTruthy] at h1
    | some s =>
      refine ⟨s, rfl, ?_, ?_⟩
      · simpa [targetTruthy] using h1
      · simpa using h2
  · rintro ⟨s, rfl, hne, hmem⟩
    exact ⟨by simpa [targetTruthy] using hne, by simpa using hmem⟩

theorem countP_isNone_add_isSome (l : List Cell) :
    l.countP (fun x => x.isNone) + l.countP (fun x => x.isSome) = l.length := by
  induction l with
  | nil => rfl
  | cons x xs ih =>
    cases x <;> simp [List.countP_cons, ih] <;> omega

theorem mapME_congr {f g : α → Except ε β} {l : List α}
    (h : ∀ x ∈ l, f x = g x) : mapME f l = mapME g l := by
  induction l with
  | nil => rfl
  | cons x xs ih =>
    simp only [mapME, h x (List.mem_cons_self x xs)]
    rw [ih (fun y hy => h y (List.mem_cons_of_mem x hy))]

theorem mapME_isOk_of_all {f : α → Except ε β} {l : List α}
    (h : ∀ x ∈ l, (f x).isOk = true) : (mapME f l).isOk = true := by
  induction l with
  | nil => rfl
  | cons x xs ih =>
    simp only [mapME]
    cases hx : f x with
    | error e =>
      have := h x (List.mem_cons_self x xs)
      rw [hx] at this
      simp [Except.isOk, Except.toBool] at this
    | ok v =>
      cases hrest : mapME f xs with
      | error e =>
        have := ih (fun y hy => h y (List.mem_cons_of_mem x hy))
        rw [hrest] at this
        simp [Except.isOk, Except.toBool] at this
      | ok ws => simp [Except.map, Except.isOk, Except.toBool]

theorem analyze_variable_name {df : DataFrame} {c : String} {t : Option String} {v : VarStats}
    (h : analyze_variable df c t = .ok v) : v.name = c := by
  rcases analyze_variable_ok h with ⟨rfl, -⟩
  rfl

theorem mapME_ok_names {df : DataFrame} {t : Option String} {l : List Column}
    {vs : List VarStats}
    (h : mapME (fun c => analyze_variable df c.name t) l = .ok vs) :
    vs.map (fun v => v.name) = l.map (fun c => c.name) := by
  induction l generalizing vs with
  | nil => cases h; rfl
  | cons x xs ih =>
    simp only [mapME] at h
    cases hx : analyze_variable df x.name t with
    | error e => rw [hx] at h; cases h
    | ok v =>
      rw [hx] at h
      cases hrest : mapME (fun c => analyze_variable df c.name t) xs with
      | error e => rw [hrest] at h; simp [Except.map] at h
      | ok ws =>
        rw [hrest] at h
        simp only [Except.map] at h
        cases h
        simp only [List.map_cons]
        rw [analyze_variable_name hx, ih hrest]

theorem analyze_variable_isOk {df : DataFrame} {c : String} (t : Option String)
    (h : (df.getCol c).cells.length ≠ 0) : (analyze_variable df c t).isOk = true := by
  rw [analyze_variable, if_neg h]
  rfl

theorem targetPresent_none (df : DataFrame) : targetPresent df none = false := rfl

theorem analyze_variable_target_irrelevant {df : DataFrame} {t : Option String}
    (c : String) (h : targetPresent df t = false) :
    analyze_variable df c t = analyze_variable df c none := by
  simp only [analyze_variable, h, targetPresent_none, Bool.false_and, ite_self]

theorem getCol_of_mem {df : DataFrame} {n : String} (h : n ∈ df.colNames) :
    df.getCol n ∈ df.cols ∧ (df.getCol n).name = n := by
  rcases List.mem_map.mp h with ⟨c, hc, rfl⟩
  have hsome : (df.cols.find? (fun x => x.name == c.name)).isSome := by
    rw [List.find?_isSome]
    exact ⟨c, hc, by simp⟩
  cases hf : df.cols.find? (fun x => x.name == c.name) with
  | none => rw [hf] at hsome; simp at hsome
  | some c2 =>
    have hmem := List.mem_of_find?_eq_some hf
    have hname := List.find?_some hf
    rw [beq_iff_eq] at hname
    constructor
    · simpa [DataFrame.getCol, hf] using hmem
    · simpa [DataFrame.getCol, hf] using hname

theorem getCol_head {df : DataFrame} {c : Column} {rest : List Column}
    (h : df.cols = c :: rest) : df.getCol c.name = c := by
  simp [DataFrame.getCol, h, List.find?_cons_of_pos]

theorem missingCells_zero {df : DataFrame} (hR : df.Rect) (h0 : df.nrows = 0) :
    missingCells df = 0 := by
  rw [missingCells]
  refine List.sum_eq_zero ?_
  intro x hx
  rcases List.mem_map.mp hx with ⟨c, hc, rfl⟩
  have hlen := hR c hc
  rw [h0] at hlen
  have hle : c.cells.countP (fun x : Cell => x.isNone) ≤ c.cells.length :=
    List.countP_le_length _
  omega

theorem mem_insertDescBy (key : α → ℕ) (x a : α) (l : List α) :
    a ∈ insertDescBy key x l ↔ a = x ∨ a ∈ l := by
  induction l with
  | nil => simp [insertDescBy]
  | cons y ys ih =>
    simp only [insertDescBy]
    by_cases h : key y < key x
    · simp [h]
    · rw [if_neg h]
      simp only [List.mem_cons, ih]
      tauto

theorem mem_sortDescBy (key : α → ℕ) (a : α) (l : List α) :
    a ∈ sortDescBy key l ↔ a ∈ l := by
  induction l with
  | nil => simp [sortDescBy]
  | cons x xs ih =>
    simp only [sortDescBy, mem_insertDescBy, ih, List.mem_cons]

theorem sorted_insertDescBy (key : α → ℕ) (x : α) (l : List α)
    (hs : List.Pairwise (fun a b => key b ≤ key a) l) :
    List.Pairwise (fun a b => key b ≤ key a) (insertDescBy key x l) := by
  induction l with
  | nil => simp [insertDescBy]
  | cons y ys ih =>
    rcases List.pairwise_cons.mp hs with ⟨hy, hys⟩
    simp only [insertDescBy]
    by_cases h : key y < key x
    · rw [if_pos h]
      refine List.pairwise_cons.mpr ⟨?_, hs⟩
      intro b hb
      rcases List.mem_cons.mp hb with rfl | hb
      · exact h.le
      · exact (hy b hb).trans h.le
    · rw [if_neg h]
      refine List.pairwise_cons.mpr ⟨?_, ih hys⟩
      intro b hb
      rcases (mem_insertDescBy key x b ys).mp hb with rfl | hb
      · exact Nat.le_of_not_lt h
      · exact hy b hb

theorem sorted_sortDescBy (key : α → ℕ) (l : List α) :
    List.Pairwise (fun a b => key b ≤ key a) (sortDescBy key l) := by
  induction l with
  | nil => simp [sortDescBy]
  | cons x xs ih => exact sorted_insertDescBy key x (sortDescBy key xs) ih

theorem compareColumn_zero1 {df1 df2 : DataFrame} {col : String}
    (h : (df1.getCol col).cells.length = 0) :
    compareColumn df1 df2 col = .error .zeroDivision := by
  rw [compareColumn, if_pos h]

theorem compareColumn_zero2 {df1 df2 : DataFrame} {col : String}
    (h1 : (df1.getCol col).cells.length ≠ 0)
    (h2 : (df2.getCol col).cells.length = 0) :
    compareColumn df1 df2 col = .error .zeroDivision := by
  rw [compareColumn, if_neg h1, if_pos h2]

theorem compare_eq_map (df1 df2 : DataFrame) :
    compare df1 df2 =
      (mapME (fun col => (compareColumn df1 df2 col).map (fun r => (col, r)))
          (commonColumns df1 df2)).map
        (fun vc =>
          { columns_only_in_df1 := columnsOnlyIn df1 df2
            columns_only_in_df2 := columnsOnlyIn df2 df1
            common_columns := commonColumns df1 df2
            dtype_differences := (commonColumns df1 df2).filterMap (fun col =>
              let d1 := dtypeStr (df1.getCol col).dtype
              let d2 := dtypeStr (df2.getCol col).dtype
              if d1 ≠ d2 then some (col, d1, d2) else none)
            variable_comparison := vc }) := rfl

theorem compare_ok_fields {A B : DataFrame} (h : (compare A B).isOk = true) :
    (compareResOf (compare A B)).columns_only_in_df1 = columnsOnlyIn A B ∧
      (compareResOf (compare A B)).columns_only_in_df2 = columnsOnlyIn B A ∧
      (compareResOf (compare A B)).common_columns = commonColumns A B := by
  set r := compareResOf (compare A B) with hr
  have hok : compare A B = .ok r := exceptOk_of_isOk (compare A B) ⟨[], [], [], [], []⟩ h
  rw [compare_eq_map] at hok
  cases hE : mapME (fun col => (compareColumn A B col).map (fun r => (col, r)))
      (commonColumns A B) with
  | error e => rw [hE] at hok; simp [Except.map] at hok
  | ok vc =>
    rw [hE] at hok
    simp only [Except.map, Except.ok.injEq] at hok
    rw [← hok]
    exact ⟨rfl, rfl, rfl⟩

theorem mem_commonColumns {A B : DataFrame} {n : String} :
    n ∈ commonColumns A B ↔ n ∈ A.colNames ∧ n ∈ B.colNames := by
  rw [commonColumns, mem_sortedNameSet, List.mem_filter]
  simp

theorem commonColumns_comm (A B : DataFrame) :
    commonColumns A B = commonColumns B A := by
  rw [commonColumns, commonColumns]
  refine sortedNameSet_eq_of_same_mem ?_
  intro a
  rw [List.mem_filter, List.mem_filter]
  simp [and_comm]

theorem mapME_ok_mem_right {f : α → Except ε β} {l : List α} {vs : List β} {v : β}
    (h : mapME f l = .ok vs) (hv : v ∈ vs) : ∃ x ∈ l, f x = .ok v := by
  induction l generalizing vs with
  | nil => cases h; cases hv
  | cons x xs ih =>
    simp only [mapME] at h
    cases hx : f x with
    | error e => rw [hx] at h; cases h
    | ok w =>
      rw [hx] at h
      cases hrest : mapME f xs with
      | error e => rw [hrest] at h; simp [Except.map] at h
      | ok ws =>
        rw [hrest] at h
        simp only [Except.map] at h
        cases h
        rcases List.mem_cons.mp hv with rfl | hv2
        · exact ⟨x, List.mem_cons_self x xs, hx⟩
        · rcases ih hrest hv2 with ⟨y, hy, hfy⟩
          exact ⟨y, List.mem_cons_of_mem x hy, hfy⟩

/-- C8: for every input frame, column, and target argument, the column profile
produced by the variable analyzer satisfies missing_count plus the number of
non-missing cells equals the total cell count of the column, and its
distinct_count is exactly the number of distinct non-missing values. Both
sides are wrapped in the same analysis result, so the identity holds for every
profile the analyzer actually produces (all-missing and all-present columns
included); when the analyzer raises instead, both sides are the same error. -/
theorem c8_count_invariants (df : DataFrame) (c : String) (t : Option String) :
    (analyze_variable df c t).map
        (fun v =>
          (v.missing_count + (df.getCol c).cells.countP (fun x => x.isSome),
            v.distinct_count)) =
      (analyze_variable df c t).map
        (fun _ =>
          ((df.getCol c).cells.length,
            ((df.getCol c).cells.filterMap id).toFinset.card)) := by
  cases h : analyze_variable df c t with
  | error e => rfl
  | ok v =>
    rcases analyze_variable_ok h with ⟨rfl, -⟩
    simp only [Except.map, Except.ok.injEq, Prod.mk.injEq]
    constructor
    · exact countP_isNone_add_isSome _
    · rw [List.card_toFinset]
      rfl

theorem prepare_json_data_ne_dataSize (df : DataFrame) (t : Option String)
    (inc exc : Option (List String)) :
    prepare_json_data df t inc exc ≠ .error .dataSize := by
  intro hc
  rw [prepare_json_data_eq_map] at hc
  rcases mapME_error_mem (exceptMap_ne_error hc) with ⟨c, -, hcc⟩
  rcases analyze_variable_error hcc with ⟨he, -⟩
  cases he

theorem exceptMap_isOk {ε : Type u} {α : Type v} {β : Type w} {e : Except ε α}
    (f : α → β) (h : e.isOk = true) : (e.map f).isOk = true := by
  cases e with
  | error err => simp [Except.isOk, Except.toBool] at h
  | ok v => rfl

/-- C6: profile raises DataSizeError exactly when the row count exceeds
MAX_ROWS = 1000000 or the column count exceeds MAX_COLS = 1000 (the guard runs
before any statistic, so no other computation can produce this error), and the
boundary is inclusive: the concrete frame with exactly 1000000 rows profiles
successfully. -/
theorem c6_size_guard :
    (∀ (df : DataFrame) (t : Option String) (inc exc : Option (List String)),
      profile df t inc exc = .error .dataSize ↔
        MAX_ROWS < df.nrows ∨ MAX_COLS < df.ncols) ∧
    (profile bigDf none none none).isOk = true := by
  constructor
  · intro df t inc exc
    by_cases h1 : MAX_ROWS < df.nrows
    · simp [profile, h1]
    · by_cases h2 : MAX_COLS < df.ncols
      · simp [profile, h1, h2]
      · rw [profile, if_neg h1, if_neg h2]
        constructor
        · intro hc
          exact absurd hc (prepare_json_data_ne_dataSize df t inc exc)
        · rintro (hc | hc)
          · exact absurd hc h1
          · exact absurd hc h2
  · have h1 : bigDf.nrows = 1000000 := by
      show (List.replicate 1000000 ((some (Val.vInt 1)) : Cell)).length = 1000000
      exact List.length_replicate 1000000 _
    rw [profile, if_neg (by rw [h1]; decide), if_neg (by decide)]
    rw [prepare_json_data_eq_map]
    refine exceptMap_isOk _ ?_
    refine mapME_isOk_of_all ?_
    intro c hcmem
    have hc : c ∈ bigDf.cols := List.mem_of_mem_filter hcmem
    have hceq : c = ⟨"a", .int64, List.replicate 1000000 (some (.vInt 1))⟩ :=
      List.mem_singleton.mp hc
    subst hceq
    refine analyze_variable_isOk none ?_
    have hbig : bigDf.cols =
        (⟨"a", .int64, List.replicate 1000000 (some (.vInt 1))⟩ : Column) :: [] := rfl
    rw [getCol_head hbig]
    show (List.replicate 1000000 ((some (Val.vInt 1)) : Cell)).length ≠ 0
    rw [List.length_replicate]
    decide

/-- C10: when the designated target names no column of the frame, the JSON
report and the profile entry point behave exactly as with no target: same
result value (so no error and no skipped column), no target-analysis section,
and no per-column target plot. -/
theorem c10_absent_target (df : DataFrame) (t : Option String)
    (inc exc : Option (List String))
    (h : ∀ s, t = some s → s ∉ df.colNames) :
    prepare_json_data df t inc exc = prepare_json_data df none inc exc ∧
      profile df t inc exc = profile df none inc exc ∧
      (∀ r, prepare_json_data df t inc exc = .ok r →
        r.target_analysis = none ∧ ∀ p ∈ r.variablesMap, p.2.target_plot = false) := by
  have hTP : targetPresent df t = false := by
    cases t with
    | none => rfl
    | some s =>
      by_cases hs : s = ""
      · subst hs; rfl
      · have hns : s ∉ df.colNames := h s rfl
        simp [targetPresent, targetTruthy, hs, hns]
  have hfilter : df.cols.filter (fun c => !(targetIs t c.name)) =
      df.cols.filter (fun c => !(targetIs none c.name)) := by
    refine List.filter_congr ?_
    intro c hc
    have hfalse : targetIs t c.name = false := by
      cases t with
      | none => rfl
      | some s =>
        by_cases hs : s = ""
        · subst hs; rfl
        · have hns : s ∉ df.colNames := h s rfl
          have hne : s ≠ c.name := by
            intro he
            exact hns (he ▸ List.mem_map_of_mem (fun x => x.name) hc)
          simp [targetIs, targetTruthy, hs, hne]
    rw [hfalse]
    rfl
  have hequal : prepare_json_data df t inc exc = prepare_json_data df none inc exc := by
    rw [prepare_json_data_eq_map, prepare_json_data_eq_map, hfilter,
      mapME_congr (fun c _ => analyze_variable_target_irrelevant c.name hTP)]
    congr 1
    funext vs
    simp [assembleReport, hTP, targetPresent_none]
  refine ⟨hequal, ?_, ?_⟩
  · rw [profile, profile, hequal]
  · intro r hr
    rw [hequal] at hr
    rcases prepare_json_data_ok hr with ⟨vs, hvs, rfl⟩
    constructor
    · simp [assembleReport, targetPresent_none]
    · intro p hp
      simp only [assembleReport] at hp
      rcases List.mem_map.mp hp with ⟨v, hv, rfl⟩
      rcases mapME_ok_mem_right hvs hv with ⟨c, -, hc⟩
      rcases analyze_variable_ok hc with ⟨rfl, -⟩
      simp [targetPresent_none, ite_self]

/-- Witness for C10 at scenario-1 data and the absent target name zzz. -/
theorem c10_absent_target_witness :
    prepare_json_data dfC1 (some "zzz") none none =
        prepare_json_data dfC1 none none none ∧
      profile dfC1 (some "zzz") none none = profile dfC1 none none none := by
  have h := c10_absent_target dfC1 (some "zzz") none none
    (by intro s hs; cases hs; decide)
  exact ⟨h.1, h.2.1⟩

/-- Counterexample to C1: for the scenario-1 frame with target designated, the
correlation section IS present — the source counts the int64/float64 columns
of the full frame (age and target both qualify) without excluding the target,
so the report carries a correlation matrix over age and target. -/
theorem c1_counterexample :
    (prepare_json_data dfC1 (some "target") none none).toOption.map
        (fun r => r.correlations) = some (some ["age", "target"]) := by
  decide

/-- C1 amended: the correlation section of the JSON report is present iff the
include/exclude filters allow it and the frame has more than one
int64/float64 column COUNTING the designated target column; in particular for
the scenario-1 frame the section is present, not absent. -/
theorem c1_correlations_rule (df : DataFrame) (t : Option String)
    (inc exc : Option (List String)) (r : Report)
    (h : prepare_json_data df t inc exc = .ok r) :
    r.correlations.isSome = true ↔
      SpecAllowed "correlations" inc exc ∧ 1 < (numericCols df).length := by
  rcases prepare_json_data_ok h with ⟨vs, -, rfl⟩
  simp only [assembleReport]
  by_cases hs : sectionOn "correlations" inc exc = true
  · rw [if_pos hs]
    by_cases hn : 1 < (numericCols df).length
    · rw [if_pos hn]
      simp [(sectionOn_iff _ _ _).mp hs, hn]
    · rw [if_neg hn]
      simp [hn]
  · rw [if_neg hs]
    simp only [Option.isSome_none, Bool.false_eq_true, false_iff, not_and]
    intro hsa
    exact absurd ((sectionOn_iff _ _ _).mpr hsa) hs

/-- Witness for the amended C1 at the scenario-1 frame: both sides of the
equivalence hold there, so the correlation section is present. -/
theorem c1_correlations_rule_witness :
    (reportOf (prepare_json_data dfC1 (some "target") none none)).correlations.isSome
      = true := by
  have hok : prepare_json_data dfC1 (some "target") none none =
      .ok (reportOf (prepare_json_data dfC1 (some "target") none none)) :=
    exceptOk_of_isOk _ ⟨0, 0, 0, 0, [], none, none, none, none⟩ (by decide)
  exact (c1_correlations_rule dfC1 (some "target") none none _ hok).mpr
    ⟨⟨Or.inl rfl, Or.inl rfl⟩, by decide⟩

/-- Counterexample to C3: even with every section (including target analysis)
named in exclude_sections, the target-analysis section is still produced —
the source gates it only on the presence of the target, not on the filters. -/
theorem c3_counterexample :
    (prepare_json_data dfC1 (some "target") none
          (some ["target_analysis", "correlations", "missing_values", "duplicates"])).toOption.map
        (fun r => r.target_analysis.isSome) = some true := by
  decide

/-- C3 amended: the correlations, missing_values and duplicates sections obey
the include/exclude filters independently (with an empty list behaving like an
unset argument), but the target-analysis section ignores both filters: it is
present iff the target is a nonempty name of an existing column. -/
theorem c3_section_gating (df : DataFrame) (t : Option String)
    (inc exc : Option (List String)) (r : Report)
    (h : prepare_json_data df t inc exc = .ok r) :
    (r.missing_values.isSome = true ↔ SpecAllowed "missing_values" inc exc) ∧
      (r.duplicates.isSome = true ↔ SpecAllowed "duplicates" inc exc) ∧
      (r.correlations.isSome = true → SpecAllowed "correlations" inc exc) ∧
      (r.target_analysis.isSome = true ↔ TargetPresentP df t) := by
  rcases prepare_json_data_ok h with ⟨vs, -, rfl⟩
  simp only [assembleReport]
  refine ⟨?_, ?_, ?_, ?_⟩
  · by_cases hs : sectionOn "missing_values" inc exc = true
    · rw [if_pos hs]
      simp [(sectionOn_iff _ _ _).mp hs]
    · rw [if_neg hs]
      simp only [Option.isSome_none, Bool.false_eq_true, false_iff]
      intro hsa
      exact absurd ((sectionOn_iff _ _ _).mpr hsa) hs
  · by_cases hs : sectionOn "duplicates" inc exc = true
    · rw [if_pos hs]
      simp [(sectionOn_iff _ _ _).mp hs]
    · rw [if_neg hs]
      simp only [Option.isSome_none, Bool.false_eq_true, false_iff]
      intro hsa
      exact absurd ((sectionOn_iff _ _ _).mpr hsa) hs
  · by_cases hs : sectionOn "correlations" inc exc = true
    · intro _
      exact (sectionOn_iff _ _ _).mp hs
    · rw [if_neg hs]
      simp
  · by_cases ht : targetPresent df t = true
    · rw [if_pos ht]
      simp [(targetPresent_iff _ _).mp ht]
    · rw [if_neg ht]
      simp only [Option.isSome_none, Bool.false_eq_true, false_iff]
      intro hp
      exact absurd ((targetPresent_iff _ _).mpr hp) ht

/-- Witness for the amended C3: at the scenario-1 frame with every section
excluded, the target-analysis section is present because the target exists. -/
theorem c3_section_gating_witness :
    (reportOf (prepare_json_data dfC1 (some "target") none
          (some ["target_analysis", "correlations", "missing_values", "duplicates"]))).target_analysis.isSome
      = true := by
  have hok : prepare_json_data dfC1 (some "target") none
        (some ["target_analysis", "correlations", "missing_values", "duplicates"]) =
      .ok (reportOf (prepare_json_data dfC1 (some "target") none
        (some ["target_analysis", "correlations", "missing_values", "duplicates"]))) :=
    exceptOk_of_isOk _ ⟨0, 0, 0, 0, [], none, none, none, none⟩ (by decide)
  exact ((c3_section_gating dfC1 (some "target") none
        (some ["target_analysis", "correlations", "missing_values", "duplicates"]) _
        hok).2.2.2).mpr
    ⟨"target", rfl, by decide, by decide⟩

/-- Counterexample to C5: for the scenario-1 frame with target designated the
overview column count is 3 — the full count, not the claimed full count minus
one (which would be 2). -/
theorem c5_counterexample :
    (prepare_json_data dfC1 (some "target") none none).toOption.map
          (fun r => r.columns) = some 3 ∧
      dfC1.ncols - 1 ≠ 3 := by
  exact ⟨by decide, by decide⟩

/-- C5 amended: the overview row and column counts of the report always
reflect the full frame (the column count is NOT reduced when a target is
designated), while the per-column map holds exactly the non-target columns in
order, so a truthy designated target name never appears among its keys. -/
theorem c5_overview_counts (df : DataFrame) (t : Option String)
    (inc exc : Option (List String)) (r : Report)
    (h : prepare_json_data df t inc exc = .ok r) :
    r.rows = df.nrows ∧ r.columns = df.ncols ∧ r.n_obs = df.nrows ∧
      r.n_vars = df.ncols ∧
      r.variablesMap.map Prod.fst =
        (df.cols.filter (fun c => !(targetIs t c.name))).map (fun c => c.name) ∧
      (∀ s, t = some s → s ≠ "" → s ∉ r.variablesMap.map Prod.fst) := by
  rcases prepare_json_data_ok h with ⟨vs, hvs, rfl⟩
  have hkeys : (assembleReport df t inc exc vs).variablesMap.map Prod.fst =
      (df.cols.filter (fun c => !(targetIs t c.name))).map (fun c => c.name) := by
    simp only [assembleReport, List.map_map]
    exact mapME_ok_names hvs
  refine ⟨rfl, rfl, rfl, rfl, hkeys, ?_⟩
  intro s hts hne hmem
  rw [hkeys] at hmem
  rcases List.mem_map.mp hmem with ⟨c, hcf, hcname⟩
  have hpred := List.of_mem_filter hcf
  subst hts
  rw [Bool.not_eq_true'] at hpred
  rw [targetIs, targetTruthy] at hpred
  simp [hne, hcname] at hpred

/-- Witness for the amended C5 at the scenario-1 frame. -/
theorem c5_overview_counts_witness :
    (reportOf (prepare_json_data dfC1 (some "target") none none)).rows = dfC1.nrows ∧
      (reportOf (prepare_json_data dfC1 (some "target") none none)).columns =
        dfC1.ncols ∧
      "target" ∉
        (reportOf (prepare_json_data dfC1 (some "target") none none)).variablesMap.map
          Prod.fst := by
  have hok : prepare_json_data dfC1 (some "target") none none =
      .ok (reportOf (prepare_json_data dfC1 (some "target") none none)) :=
    exceptOk_of_isOk _ ⟨0, 0, 0, 0, [], none, none, none, none⟩ (by decide)
  have h := c5_overview_counts dfC1 (some "target") none none _ hok
  exact ⟨h.1, h.2.1, h.2.2.2.2.2 "target" rfl (by decide)⟩

theorem nrows_cons {df : DataFrame} {c : Column} {rest : List Column}
    (h : df.cols = c :: rest) : df.nrows = c.cells.length := by
  unfold DataFrame.nrows
  rw [h]

/-- Counterexample to C2: profiling a frame whose only column has zero rows
raises ZeroDivisionError (the Python-int division computing distinct_pct)
instead of degrading the percentage fields to a sentinel. -/
theorem c2_counterexample :
    prepare_json_data dfE none none none = .error .zeroDivision := by
  decide

/-- C2 amended: on a zero-row frame with at least one column, profiling raises
a division-by-zero fault — distinct_pct divides the Python int
`series.nunique()` by `total_count = 0` for the first analyzed column — while
the numpy-backed overview percentage fields evaluate to NaN rather than to 0
or a N/A sentinel. -/
theorem c2_zero_rows (df : DataFrame) (inc exc : Option (List String))
    (hR : df.Rect) (hne : df.cols ≠ []) (h0 : df.nrows = 0) :
    prepare_json_data df none inc exc = .error .zeroDivision ∧
      (calculate_overview_stats df).duplicate_rows_pct = .nan ∧
      (calculate_overview_stats df).missing_cells_pct = .nan := by
  obtain ⟨c, rest, hcols⟩ : ∃ c rest, df.cols = c :: rest := by
    cases hc : df.cols with
    | nil => exact absurd hc hne
    | cons c rest => exact ⟨c, rest, rfl⟩
  have hdup0 : duplicatedCount df = 0 := by
    rw [duplicatedCount, h0]
    rfl
  refine ⟨?_, ?_, ?_⟩
  · rw [prepare_json_data_eq_map]
    have hfself : df.cols.filter (fun c => !(targetIs none c.name)) = df.cols :=
      List.filter_eq_self.mpr (fun a _ => rfl)
    rw [hfself, hcols]
    have hczero : (df.getCol c.name).cells.length = 0 := by
      rw [getCol_head hcols]
      rw [nrows_cons hcols] at h0
      exact h0
    rw [mapME_cons_error rest (analyze_variable_zero hczero)]
    rfl
  · show pct (duplicatedCount df) df.nrows = .nan
    rw [hdup0, h0]
    simp [pct, npDiv]
  · show pct (missingCells df) (df.nrows * df.ncols) = .nan
    rw [missingCells_zero hR h0, h0]
    simp [pct, npDiv]

/-- Witness for the amended C2 at the one-column zero-row frame. -/
theorem c2_zero_rows_witness :
    prepare_json_data dfE none none none = .error .zeroDivision ∧
      (calculate_overview_stats dfE).duplicate_rows_pct = .nan ∧
      (calculate_overview_stats dfE).missing_cells_pct = .nan :=
  c2_zero_rows dfE none none
    (by intro c hc; rcases List.mem_singleton.mp hc with rfl; rfl)
    (by decide) rfl

/-- Counterexample to C4: comparing two frames that share an empty column
raises ZeroDivisionError, although no numeric statistic on an absent column
was requested and the claim promises graceful degradation. -/
theorem c4_counterexample : compare dfE dfE = .error .zeroDivision := by
  decide

/-- C4 amended: compare only ever touches common columns, so an absent-column
failure cannot arise and two frames with no common column always compare
successfully; but the comparison is not total: as soon as a common column
exists and either frame has zero rows, the Python-int unique_percent division
raises ZeroDivisionError instead of degrading to empty result structures. -/
theorem c4_compare_errors (A B : DataFrame) (hA : A.Rect) (hB : B.Rect) :
    ((∃ n, n ∈ A.colNames ∧ n ∈ B.colNames) → A.nrows = 0 ∨ B.nrows = 0 →
      compare A B = .error .zeroDivision) ∧
    ((∀ n, n ∈ A.colNames → n ∉ B.colNames) → (compare A B).isOk = true) := by
  constructor
  · rintro ⟨n, hnA, hnB⟩ h0
    have hmem : n ∈ commonColumns A B := mem_commonColumns.mpr ⟨hnA, hnB⟩
    obtain ⟨c, cs, hcc⟩ : ∃ c cs, commonColumns A B = c :: cs := by
      cases hc : commonColumns A B with
      | nil => rw [hc] at hmem; cases hmem
      | cons c cs => exact ⟨c, cs, rfl⟩
    have hcmem : c ∈ commonColumns A B := by
      rw [hcc]
      exact List.mem_cons_self _ _
    rcases mem_commonColumns.mp hcmem with ⟨hcA, hcB⟩
    have hlenA : (A.getCol c).cells.length = A.nrows :=
      hA _ (getCol_of_mem hcA).1
    have hlenB : (B.getCol c).cells.length = B.nrows :=
      hB _ (getCol_of_mem hcB).1
    have hcol : compareColumn A B c = .error .zeroDivision := by
      rcases h0 with h0 | h0
      · exact compareColumn_zero1 (by rw [hlenA, h0])
      · by_cases hA0 : (A.getCol c).cells.length = 0
        · exact compareColumn_zero1 hA0
        · exact compareColumn_zero2 hA0 (by rw [hlenB, h0])
    rw [compare_eq_map, hcc, mapME_cons_error cs (by rw [hcol]; rfl)]
    rfl
  · intro hdisj
    have hcc : commonColumns A B = [] := by
      rw [commonColumns]
      have hfil : A.colNames.filter (fun n => B.colNames.contains n) = [] := by
        rw [List.filter_eq_nil_iff]
        intro a ha
        simp only [List.contains_iff_exists_mem_beq, beq_iff_eq, not_exists, not_and]
        intro b hb hab
        exact hdisj a ha (hab ▸ hb)
      rw [hfil]
      rfl
    rw [compare_eq_map, hcc]
    rfl

/-- Witness for the amended C4: the shared empty column a raises, whereas two
frames without common columns compare successfully. -/
theorem c4_compare_errors_witness :
    compare dfE dfE = .error .zeroDivision ∧ (compare dfX dfY).isOk = true := by
  have h1 := c4_compare_errors dfE dfE
    (by intro c hc; rcases List.mem_singleton.mp hc with rfl; rfl)
    (by intro c hc; rcases List.mem_singleton.mp hc with rfl; rfl)
  have h2 := c4_compare_errors dfX dfY
    (by intro c hc; rcases List.mem_singleton.mp hc with rfl; rfl)
    (by intro c hc; rcases List.mem_singleton.mp hc with rfl; rfl)
  exact ⟨h1.1 ⟨"a", by decide, by decide⟩ (Or.inl rfl), h2.2 (by decide)⟩

/-- C9: schema reconciliation of compare is symmetric — the columns reported
as unique to the first frame of one call are exactly those reported as unique
to the second frame of the swapped call, and the common-column list is the
same either way — and all three lists are sorted in the lexicographic string
order Python sorted uses. -/
theorem c9_compare_symmetry (A B : DataFrame)
    (hAB : (compare A B).isOk = true) (hBA : (compare B A).isOk = true) :
    (compareResOf (compare A B)).columns_only_in_df1 =
        (compareResOf (compare B A)).columns_only_in_df2 ∧
      (compareResOf (compare A B)).columns_only_in_df2 =
        (compareResOf (compare B A)).columns_only_in_df1 ∧
      (compareResOf (compare A B)).common_columns =
        (compareResOf (compare B A)).common_columns ∧
      List.Sorted (fun a b => strLe a b = true)
        (compareResOf (compare A B)).columns_only_in_df1 ∧
      List.Sorted (fun a b => strLe a b = true)
        (compareResOf (compare A B)).columns_only_in_df2 ∧
      List.Sorted (fun a b => strLe a b = true)
        (compareResOf (compare A B)).common_columns := by
  rcases compare_ok_fields hAB with ⟨e1, e2, e3⟩
  rcases compare_ok_fields hBA with ⟨f1, f2, f3⟩
  rw [e1, e2, e3, f1, f2, f3]
  exact ⟨rfl, rfl, commonColumns_comm A B, sortedNameSet_sorted _,
    sortedNameSet_sorted _, sortedNameSet_sorted _⟩

/-- Witness for C9 at the scenario-2 frames (id, score, region) and
(id, score, flag). -/
theorem c9_compare_symmetry_witness :
    (compareResOf (compare dfA dfB)).columns_only_in_df1 =
        (compareResOf (compare dfB dfA)).columns_only_in_df2 ∧
      (compareResOf (compare dfA dfB)).columns_only_in_df2 =
        (compareResOf (compare dfB dfA)).columns_only_in_df1 ∧
      (compareResOf (compare dfA dfB)).common_columns =
        (compareResOf (compare dfB dfA)).common_columns ∧
      List.Sorted (fun a b => strLe a b = true)
        (compareResOf (compare dfA dfB)).columns_only_in_df1 ∧
      List.Sorted (fun a b => strLe a b = true)
        (compareResOf (compare dfA dfB)).columns_only_in_df2 ∧
      List.Sorted (fun a b => strLe a b = true)
        (compareResOf (compare dfA dfB)).common_columns :=
  c9_compare_symmetry dfA dfB (by decide) (by decide)

/-- C7: the duplicate analyzer returns at most 10 groups, sorted by count
descending; every reported group has count greater than 1 and its count is the
multiplicity of some concrete NaN-free row tuple under full-row equality; the
row-identifier sample attached to each group is the first 5 indices of the
dataset-wide duplicated mask (so at most 5, and each sampled index belongs to
a row tuple occurring at least twice). On the scenario-3 frame — 10 rows with
exactly one fully duplicated pair — the analyzer reports exactly one group of
count 2 with sample rows 0 and 1, and the overview counts 1 duplicate row
(repeats beyond the first). -/
theorem c7_duplicate_analysis :
    (∀ df : DataFrame,
      (analyze_duplicates df).length ≤ 10 ∧
        List.Pairwise (fun g1 g2 : DupGroup => g2.count ≤ g1.count)
          (analyze_duplicates df) ∧
        ∀ g ∈ analyze_duplicates df,
          1 < g.count ∧
            (∃ r, r.any (fun x => x.isNone) = false ∧
              g.count = rowOccurrences df r) ∧
            g.rows = (duplicatedKeepFalseIdx df).take 5 ∧
            g.rows.length ≤ 5 ∧
            (∀ i ∈ g.rows, 2 ≤ rowOccurrences df (rowAt df i))) ∧
      analyze_duplicates dfC7 = [⟨2, [0, 1]⟩] ∧
        (calculate_overview_stats dfC7).duplicate_rows = 1 := by
  refine ⟨?_, by decide, by decide⟩
  intro df
  by_cases hd : duplicatedCount df = 0
  · rw [analyze_duplicates, if_pos hd]
    simp
  · rw [analyze_duplicates, if_neg hd]
    refine ⟨?_, ?_, ?_⟩
    · rw [List.length_map]
      exact List.length_take_le _ _
    · rw [List.pairwise_map]
      exact List.Pairwise.sublist (List.take_sublist _ _)
        (sorted_sortDescBy id _)
    · intro g hg
      rcases List.mem_map.mp hg with ⟨cnt, hcnt, rfl⟩
      have hcnt2 : cnt ∈ sortDescBy id ((groupSizes df).filter (fun n => decide (1 < n))) :=
        List.take_subset _ _ hcnt
      have hcnt3 : cnt ∈ (groupSizes df).filter (fun n => decide (1 < n)) :=
        (mem_sortDescBy id cnt _).mp hcnt2
      have h1lt : 1 < cnt := by
        have := List.of_mem_filter hcnt3
        simpa using this
      have hing : cnt ∈ groupSizes df := List.mem_of_mem_filter hcnt3
      refine ⟨h1lt, ?_, rfl, List.length_take_le _ _, ?_⟩
      · rw [groupSizes] at hing
        rcases List.mem_map.mp hing with ⟨r, hrd, rfl⟩
        have hrk : r ∈ keyRowsList df := List.mem_dedup.mp hrd
        have hpred := List.of_mem_filter hrk
        rw [Bool.not_eq_true'] at hpred
        refine ⟨r, hpred, ?_⟩
        have hptrue : (!(r.any fun c => Option.isNone c)) = true := by
          rw [hpred]
          rfl
        rw [rowOccurrences, keyRowsList]
        exact List.count_filter hptrue
      · intro i hi
        have hmem : i ∈ duplicatedKeepFalseIdx df := List.take_subset _ _ hi
        have := List.of_mem_filter hmem
        simpa using this

end Pytics
